import Mathlib

/-!
Verification of the sequential-znode identity / import-reconciliation logic of
the terraform-provider-zookeeper repository, shallowly embedded in Lean.

The relevant Go code is the `provider` package: the sequential-znode resource
(`resourceSeqZNode`, `resourceSeqZNodeCreate`, `resourceSeqZNodeImport`) and the
znode data source (`dataSourceZNodeRead`).  External collaborators (the
ZooKeeper client, the Terraform SDK's resource-data bag and its schema
validation) appear as explicit oracle parameters; calls made to the ZooKeeper
client are recorded in an explicit trace.
-/

namespace Provider

/-- A ZooKeeper node value as returned by the external client library:
absolute path, byte content, and the read-only stat metadata map. -/
structure ZNode where
  Path : String
  Data : List Nat
  Stat : List (String × Int)
deriving DecidableEq

/-- A value held in a resource-data state field: the provider stores string
fields, byte content, and the stat map of integers. -/
inductive FieldVal where
  | str : String → FieldVal
  | bytes : List Nat → FieldVal
  | statv : List (String × Int) → FieldVal
deriving DecidableEq

/-- Terraform's resource-data record as the provider manipulates it: the
identity written by SetId, the named state fields, and the mark set by
MarkNewResource. -/
structure ResourceData where
  id : String
  fields : List (String × FieldVal)
  isNewResource : Bool
deriving DecidableEq

/-- Field lookup by name in a resource-data record. -/
def getF : List (String × FieldVal) → String → Option FieldVal
  | [], _ => none
  | (k, v) :: t, n => if k = n then some v else getF t n

/-- Field write: replace the named entry, or append it when absent. -/
def setF : List (String × FieldVal) → String → FieldVal → List (String × FieldVal)
  | [], n, v => [(n, v)]
  | (k, w) :: t, n, v => if k = n then (n, v) :: t else (k, w) :: setF t n v

/-- rscData.Get(name).(string): the value of a string field, or Go's zero
value when the field is absent or not a string. -/
def ResourceData.getStr (rd : ResourceData) (n : String) : String :=
  match getF rd.fields n with
  | some (FieldVal.str s) => s
  | _ => ""

/-- rscData.Set(name, value): the SDK validates the write and either fails
with an error or updates the field.  The oracle `sdk` stands for the SDK's
schema-validation layer, an external collaborator: `some e` means the write
fails with error `e`. -/
def ResourceData.set (rd : ResourceData) (sdk : String → FieldVal → Option String)
    (n : String) (v : FieldVal) : Except String ResourceData :=
  match sdk n v with
  | some e => Except.error e
  | none => Except.ok { rd with fields := setF rd.fields n v }

/-- An SDK oracle whose schema validation accepts every state-write. -/
def allowAll : String → FieldVal → Option String := fun _ _ => none

/-- Modelled from the spec: `client.RemoveSequentialSuffix` lives in the
repository's internal client package, which is not among the staged source
files.  Per the spec, the sequential suffix is the trailing run of exactly 10
decimal digits and stripping it yields the path prefix; a path that does not
end in a 10-digit numeric run is not validated defensively and is left to
whatever the string-stripping produces, here the path unchanged. -/
def removeSeqSuffixChars (cs : List Char) : List Char :=
  if 10 ≤ cs.length ∧ (cs.drop (cs.length - 10)).all Char.isDigit = true then
    cs.take (cs.length - 10)
  else cs

/-- `client.RemoveSequentialSuffix` on strings (see `removeSeqSuffixChars`). -/
def RemoveSequentialSuffix (path : String) : String :=
  ⟨removeSeqSuffixChars path.data⟩

/-- Whether a path ends in a run of 10 decimal digits (its last 10 characters
exist and are all digits). -/
def endsInTenDigitRun (s : String) : Bool :=
  decide (10 ≤ s.data.length) && (s.data.drop (s.data.length - 10)).all Char.isDigit

/-- Modelled from the spec: the 10-digit zero-padded decimal rendering
(`%010d`) of the counter that ZooKeeper appends to the path prefix when a
sequential znode is materialized. -/
def formatSeqCounterChars (n : Nat) : List Char :=
  (List.range 10).map fun i => Char.ofNat (48 + n / 10 ^ (9 - i) % 10)

/-- Modelled from the spec: the external client's `CreateSequential` (not
among the staged source files).  ZooKeeper materializes the znode at the
supplied prefix followed by the counter it assigns; the counter value and the
stat metadata are the external service's choice, so they are parameters. -/
def CreateSequential (pathPfx : String) (dataBytes : List Nat)
    (counter : Nat) (stat : List (String × Int)) : ZNode :=
  { Path := pathPfx ++ String.mk (formatSeqCounterChars counter)
    Data := dataBytes
    Stat := stat }

lemma data_append (p q : String) : (p ++ q).data = p.data ++ q.data := by
  cases p; cases q; rfl

lemma removeSeqSuffixChars_append (p s : List Char) (hs : s.length = 10)
    (hd : s.all Char.isDigit = true) : removeSeqSuffixChars (p ++ s) = p := by
  have hsub : (p ++ s).length - 10 = p.length := by simp [hs]
  unfold removeSeqSuffixChars
  rw [if_pos]
  · rw [hsub]
    exact List.take_left p s
  · constructor
    · simp [hs]
    · rw [hsub, List.drop_left]
      exact hd

lemma remove_append_tenDigits (p q : String) (hq : q.data.length = 10)
    (hd : q.data.all Char.isDigit = true) : RemoveSequentialSuffix (p ++ q) = p := by
  unfold RemoveSequentialSuffix
  rw [data_append, removeSeqSuffixChars_append p.data q.data hq hd]

lemma isDigit_digitChar (d : Nat) (hd : d < 10) : (Char.ofNat (48 + d)).isDigit = true := by
  interval_cases d <;> decide

lemma formatSeqCounterChars_length (n : Nat) : (formatSeqCounterChars n).length = 10 := by
  unfold formatSeqCounterChars
  simp

lemma formatSeqCounterChars_all_isDigit (n : Nat) :
    (formatSeqCounterChars n).all Char.isDigit = true := by
  unfold formatSeqCounterChars
  rw [List.all_eq_true]
  intro c hc
  rw [List.mem_map] at hc
  obtain ⟨i, hi, rfl⟩ := hc
  exact isDigit_digitChar _ (Nat.mod_lt _ (by norm_num))

/-- A Terraform diagnostic's severity. -/
inductive Severity where
  | error
  | warning
deriving DecidableEq

/-- One Terraform diagnostic: severity and summary text. -/
structure Diagnostic where
  severity : Severity
  summary : String
deriving DecidableEq

/-- diag.Errorf: diagnostics holding exactly one error with the formatted
message. -/
def diagErrorf (msg : String) : List Diagnostic := [⟨Severity.error, msg⟩]

/-- diag.FromErr: diagnostics holding exactly one error built from a Go
error value. -/
def diagFromErr (e : String) : List Diagnostic := [⟨Severity.error, e⟩]

/-- One call made to the external ZooKeeper client. -/
inductive ZkCall where
  | createSeq : String → List Nat → ZkCall
  | readPath : String → ZkCall
deriving DecidableEq

/-- One state-write step of the Resource State Mapper: write the field or turn
the SDK's error into an appended error diagnostic. -/
def setAttrStep (sdk : String → FieldVal → Option String)
    (acc : ResourceData × List Diagnostic) (kv : String × FieldVal) :
    ResourceData × List Diagnostic :=
  match sdk kv.1 kv.2 with
  | some e => (acc.1, acc.2 ++ [⟨Severity.error, e⟩])
  | none => ({ acc.1 with fields := setF acc.1.fields kv.1 kv.2 }, acc.2)

/-- Modelled from the spec: the Resource State Mapper `setAttributesFromZNode`
(not among the staged source files) writes the znode's content in its two
representations (`data`, `data_base64`, both standing for the same bytes),
the computed `path` and the `stat` map back into resource-data, collecting a
diagnostic for every state-write the SDK rejects. -/
def setAttributesFromZNode (sdk : String → FieldVal → Option String)
    (rd : ResourceData) (z : ZNode) (diags : List Diagnostic) :
    ResourceData × List Diagnostic :=
  [("data", FieldVal.bytes z.Data), ("data_base64", FieldVal.bytes z.Data),
    ("path", FieldVal.str z.Path), ("stat", FieldVal.statv z.Stat)].foldl
    (setAttrStep sdk) (rd, diags)

/-- Embedding of `resourceSeqZNodeCreate` (package provider): read
`path_prefix` from the record, decode the content bytes, call the client's
CreateSequential with the prefix and bytes, and on success record the
returned `Path` as the identity (SetId), mark the resource new and populate
the attributes.  The outcome of `getDataBytesFromResourceData`, the client's
behaviour and the SDK's state-write validation are oracle parameters; the
second component is the trace of client calls made. -/
def resourceSeqZNodeCreate (sdk : String → FieldVal → Option String)
    (getDataBytes : Except String (List Nat))
    (zkCreateSeq : String → List Nat → Except String ZNode)
    (rd : ResourceData) : (ResourceData × List Diagnostic) × List ZkCall :=
  let pathPfx := rd.getStr "path_prefix"
  match getDataBytes with
  | Except.error e => ((rd, diagFromErr e), [])
  | Except.ok dataBytes =>
    match zkCreateSeq pathPfx dataBytes with
    | Except.error e =>
      ((rd, diagErrorf ("Failed to create Sequential ZNode '" ++ pathPfx ++ "': " ++ e)),
        [ZkCall.createSeq pathPfx dataBytes])
    | Except.ok znode =>
      (setAttributesFromZNode sdk { rd with id := znode.Path, isNewResource := true } znode [],
        [ZkCall.createSeq pathPfx dataBytes])

/-- Embedding of the earlier `resourceSeqZNodeCreate` of package zookeeper
(src/provider/resource_sequential_znode.go): the same shape, with the already
decoded content bytes (`getFieldDataFromResourceData` is infallible there)
and the diagnostic built as an explicit one-element append to the empty
slice. -/
def resourceSeqZNodeCreateV0 (sdk : String → FieldVal → Option String)
    (fieldData : List Nat)
    (zkCreateSeq : String → List Nat → Except String ZNode)
    (rd : ResourceData) : (ResourceData × List Diagnostic) × List ZkCall :=
  let pathPfx := rd.getStr "path_prefix"
  match zkCreateSeq pathPfx fieldData with
  | Except.error e =>
    ((rd, [⟨Severity.error, "Failed to create Sequential ZNode '" ++ pathPfx ++ "': " ++ e⟩]),
      [ZkCall.createSeq pathPfx fieldData])
  | Except.ok znode =>
    (setAttributesFromZNode sdk { rd with id := znode.Path, isNewResource := true } znode [],
      [ZkCall.createSeq pathPfx fieldData])

/-- Embedding of `resourceSeqZNodeImport`: re-create the original
`path_prefix` for the imported resource by removing the sequential suffix
from the id, write it into state, and return the single record; the error of
a failed state-write is returned as-is.  The unused client handle of the Go
signature shows up as the empty client-call trace. -/
def resourceSeqZNodeImport (sdk : String → FieldVal → Option String)
    (rd : ResourceData) : Except String (List ResourceData) × List ZkCall :=
  match rd.set sdk "path_prefix" (FieldVal.str (RemoveSequentialSuffix rd.id)) with
  | Except.error e => (Except.error e, [])
  | Except.ok rd2 => (Except.ok [rd2], [])

/-- Embedding of `dataSourceZNodeRead`: read the requested path through the
client; on failure report one error diagnostic naming the path, on success
set the returned znode's own `Path` as the identity and populate the
attributes. -/
def dataSourceZNodeRead (sdk : String → FieldVal → Option String)
    (zkRead : String → Except String ZNode)
    (rd : ResourceData) : (ResourceData × List Diagnostic) × List ZkCall :=
  let znodePath := rd.getStr "path"
  match zkRead znodePath with
  | Except.error e =>
    ((rd, diagErrorf ("Unable read ZNode from '" ++ znodePath ++ "': " ++ e)),
      [ZkCall.readPath znodePath])
  | Except.ok znode =>
    (setAttributesFromZNode sdk { rd with id := znode.Path } znode [],
      [ZkCall.readPath znodePath])

/-- The schema types this provider declares. -/
inductive SchemaType where
  | string
  | map
deriving DecidableEq

/-- One schema attribute: the flags and conflict list the provider sets. -/
structure SchemaAttr where
  typ : SchemaType
  required : Bool := false
  optional : Bool := false
  computed : Bool := false
  forceNew : Bool := false
  conflictsWith : List String := []
deriving DecidableEq

/-- Modelled from the spec: `statSchema()` (not among the staged source
files), the computed read-only stat attribute. -/
def statSchema : SchemaAttr := { typ := SchemaType.map, computed := true }

/-- The schema map declared by `resourceSeqZNode` for the sequential-znode
resource (package provider). -/
def resourceSeqZNodeSchema : List (String × SchemaAttr) :=
  [("path_prefix", { typ := SchemaType.string, required := true, forceNew := true }),
    ("data", { typ := SchemaType.string, optional := true, computed := true,
               conflictsWith := ["data_base64"] }),
    ("data_base64", { typ := SchemaType.string, optional := true, computed := true,
                      conflictsWith := ["data"] }),
    ("path", { typ := SchemaType.string, computed := true }),
    ("stat", statSchema)]

/-- Modelled from the spec: the SDK replaces the resource instead of updating
it in place exactly when the changed field's schema is marked ForceNew. -/
def changeForcesReplacement (schema : List (String × SchemaAttr)) (fieldName : String) : Bool :=
  match schema.lookup fieldName with
  | some a => a.forceNew
  | none => false

/-- Modelled from the spec: the SDK's ConflictsWith validation, run before any
CRUD operation, accepts a configuration exactly when no supplied field
conflicts with another supplied field. -/
def conflictsAccepted (schema : List (String × SchemaAttr)) (present : List String) : Bool :=
  present.all fun f =>
    match schema.lookup f with
    | some a => a.conflictsWith.all fun g => !present.contains g
    | none => true

lemma getF_setF_self (fs : List (String × FieldVal)) (n : String) (v : FieldVal) :
    getF (setF fs n v) n = some v := by
  induction fs with
  | nil => simp [setF, getF]
  | cons kv t ih =>
    by_cases h : kv.1 = n
    · simp [setF, getF, h]
    · simp [setF, getF, h, ih]

lemma getF_setF_ne (fs : List (String × FieldVal)) (n m : String) (v : FieldVal)
    (h : m ≠ n) : getF (setF fs n v) m = getF fs m := by
  induction fs with
  | nil => simp [setF, getF, Ne.symm h]
  | cons kv t ih =>
    by_cases hk : kv.1 = n
    · simp [setF, getF, hk, Ne.symm h]
    · by_cases hm : kv.1 = m
      · simp [setF, getF, hk, hm, h]
      · simp [setF, getF, hk, hm, ih]

lemma setF_setF_same (fs : List (String × FieldVal)) (n : String) (v : FieldVal) :
    setF (setF fs n v) n v = setF fs n v := by
  induction fs with
  | nil => simp [setF]
  | cons kv t ih =>
    by_cases h : kv.1 = n
    · simp [setF, h]
    · simp [setF, h, ih]

lemma setAttrStep_id (sdk : String → FieldVal → Option String)
    (acc : ResourceData × List Diagnostic) (kv : String × FieldVal) :
    (setAttrStep sdk acc kv).1.id = acc.1.id := by
  unfold setAttrStep
  cases sdk kv.1 kv.2 <;> rfl

lemma foldl_setAttrStep_id (sdk : String → FieldVal → Option String) :
    ∀ (l : List (String × FieldVal)) (acc : ResourceData × List Diagnostic),
      (l.foldl (setAttrStep sdk) acc).1.id = acc.1.id
  | [], _ => rfl
  | kv :: t, acc => by
    rw [List.foldl_cons]
    rw [foldl_setAttrStep_id sdk t (setAttrStep sdk acc kv)]
    exact setAttrStep_id sdk acc kv

lemma setAttributesFromZNode_id (sdk : String → FieldVal → Option String)
    (rd : ResourceData) (z : ZNode) (diags : List Diagnostic) :
    (setAttributesFromZNode sdk rd z diags).1.id = rd.id := by
  unfold setAttributesFromZNode
  exact foldl_setAttrStep_id sdk _ (rd, diags)

/-- C1: round-trip law of the Sequential Identity Resolver: for every path
prefix `p` that does not itself end in a run of 10 decimal digits, recovering
the prefix from the path produced by a sequential create under `p` — that is,
`RemoveSequentialSuffix` applied to the `Path` returned by `CreateSequential`,
exactly as `resourceSeqZNodeImport` does on the stored identity — yields
exactly `p`. -/
theorem seq_identity_roundtrip (p : String) (bytes : List Nat) (ctr : Nat)
    (st : List (String × Int)) (fs : List (String × FieldVal)) (b : Bool)
    (_hp : endsInTenDigitRun p = false) :
    RemoveSequentialSuffix (CreateSequential p bytes ctr st).Path = p
    ∧ (resourceSeqZNodeImport allowAll
        { id := (CreateSequential p bytes ctr st).Path, fields := fs,
          isNewResource := b }).1
      = Except.ok [{ id := (CreateSequential p bytes ctr st).Path,
                     fields := setF fs "path_prefix" (FieldVal.str p),
                     isNewResource := b }] := by
  have h1 : RemoveSequentialSuffix (CreateSequential p bytes ctr st).Path = p := by
    apply remove_append_tenDigits
    · exact formatSeqCounterChars_length ctr
    · exact formatSeqCounterChars_all_isDigit ctr
  refine ⟨h1, ?_⟩
  simp [resourceSeqZNodeImport, ResourceData.set, allowAll, h1]

/-- C1 witness: the round trip at the concrete prefix of the spec's scenario
and counter 7. -/
theorem seq_identity_roundtrip_witness :
    endsInTenDigitRun "/queue/item-" = false
    ∧ (RemoveSequentialSuffix (CreateSequential "/queue/item-" [] 7 []).Path = "/queue/item-"
      ∧ (resourceSeqZNodeImport allowAll
          { id := (CreateSequential "/queue/item-" [] 7 []).Path, fields := [],
            isNewResource := false }).1
        = Except.ok [{ id := (CreateSequential "/queue/item-" [] 7 []).Path,
                       fields := setF [] "path_prefix" (FieldVal.str "/queue/item-"),
                       isNewResource := false }]) :=
  ⟨by decide, seq_identity_roundtrip "/queue/item-" [] 7 [] [] false (by decide)⟩

/-- C5: the Recover step used by import strips the trailing run of 10 decimal
digits to produce `path_prefix`; in particular importing
"/queue/item-0000000007" recovers "/queue/item-" and importing
"/a/b0000000123" recovers "/a/b". -/
theorem import_strips_ten_digit_suffix (pfx sfx : String)
    (hlen : sfx.data.length = 10) (hdig : sfx.data.all Char.isDigit = true) :
    RemoveSequentialSuffix (pfx ++ sfx) = pfx
    ∧ (resourceSeqZNodeImport allowAll
        { id := "/queue/item-0000000007", fields := [], isNewResource := false }).1
      = Except.ok [{ id := "/queue/item-0000000007",
                     fields := [("path_prefix", FieldVal.str "/queue/item-")],
                     isNewResource := false }]
    ∧ (resourceSeqZNodeImport allowAll
        { id := "/a/b0000000123", fields := [], isNewResource := false }).1
      = Except.ok [{ id := "/a/b0000000123",
                     fields := [("path_prefix", FieldVal.str "/a/b")],
                     isNewResource := false }] :=
  ⟨remove_append_tenDigits pfx sfx hlen hdig, rfl, rfl⟩

/-- C5 witness: stripping at a concrete prefix and 10-digit suffix. -/
theorem import_strips_ten_digit_suffix_witness :
    ("0000000042" : String).data.length = 10
    ∧ ("0000000042" : String).data.all Char.isDigit = true
    ∧ (RemoveSequentialSuffix ("/x-" ++ "0000000042") = "/x-"
      ∧ (resourceSeqZNodeImport allowAll
          { id := "/queue/item-0000000007", fields := [], isNewResource := false }).1
        = Except.ok [{ id := "/queue/item-0000000007",
                       fields := [("path_prefix", FieldVal.str "/queue/item-")],
                       isNewResource := false }]
      ∧ (resourceSeqZNodeImport allowAll
          { id := "/a/b0000000123", fields := [], isNewResource := false }).1
        = Except.ok [{ id := "/a/b0000000123",
                       fields := [("path_prefix", FieldVal.str "/a/b")],
                       isNewResource := false }]) :=
  ⟨by decide, by decide, import_strips_ten_digit_suffix "/x-" "0000000042" (by decide) (by decide)⟩

/-- C3: for every import identifier, `resourceSeqZNodeImport` makes no call to
the ZooKeeper client (empty call trace); it only computes
`RemoveSequentialSuffix` of the identifier and writes it into the
`path_prefix` field, and it returns an error if and only if that state-write
fails, returning the state-write's own error. -/
theorem import_no_zk_call_error_iff_set_fails (sdk : String → FieldVal → Option String)
    (rd : ResourceData) :
    (resourceSeqZNodeImport sdk rd).2 = []
    ∧ (∀ e, sdk "path_prefix" (FieldVal.str (RemoveSequentialSuffix rd.id)) = some e →
        (resourceSeqZNodeImport sdk rd).1 = Except.error e)
    ∧ (sdk "path_prefix" (FieldVal.str (RemoveSequentialSuffix rd.id)) = none →
        (resourceSeqZNodeImport sdk rd).1 = Except.ok
          [{ rd with fields := (setF rd.fields "path_prefix"
              (FieldVal.str (RemoveSequentialSuffix rd.id))) }]) := by
  refine ⟨?_, ?_, ?_⟩
  · unfold resourceSeqZNodeImport ResourceData.set
    cases sdk "path_prefix" (FieldVal.str (RemoveSequentialSuffix rd.id)) <;> rfl
  · intro e he
    simp [resourceSeqZNodeImport, ResourceData.set, he]
  · intro hn
    simp [resourceSeqZNodeImport, ResourceData.set, hn]

/-- C6: import is idempotent and deterministic: when importing a record
produced the single record `rd2`, the recovered `path_prefix` equals
`RemoveSequentialSuffix` of the imported id, and importing `rd2` again yields
exactly `rd2` back. -/
theorem import_idempotent (sdk : String → FieldVal → Option String)
    (rd rd2 : ResourceData)
    (h : (resourceSeqZNodeImport sdk rd).1 = Except.ok [rd2]) :
    rd2.getStr "path_prefix" = RemoveSequentialSuffix rd.id
    ∧ (resourceSeqZNodeImport sdk rd2).1 = Except.ok [rd2] := by
  unfold resourceSeqZNodeImport ResourceData.set at h
  cases hs : sdk "path_prefix" (FieldVal.str (RemoveSequentialSuffix rd.id)) with
  | some e =>
    rw [hs] at h
    simp at h
  | none =>
    rw [hs] at h
    simp at h
    subst h
    constructor
    · simp [ResourceData.getStr, getF_setF_self]
    · simp [resourceSeqZNodeImport, ResourceData.set, hs, setF_setF_same]

/-- C6 witness: importing a concrete path twice. -/
theorem import_idempotent_witness :
    (resourceSeqZNodeImport allowAll
      { id := "/queue/item-0000000007", fields := [], isNewResource := false }).1
      = Except.ok [{ id := "/queue/item-0000000007",
                     fields := [("path_prefix", FieldVal.str "/queue/item-")],
                     isNewResource := false }]
    ∧ (ResourceData.getStr
        { id := "/queue/item-0000000007",
          fields := [("path_prefix", FieldVal.str "/queue/item-")],
          isNewResource := false } "path_prefix"
        = RemoveSequentialSuffix "/queue/item-0000000007"
      ∧ (resourceSeqZNodeImport allowAll
          { id := "/queue/item-0000000007",
            fields := [("path_prefix", FieldVal.str "/queue/item-")],
            isNewResource := false }).1
        = Except.ok [{ id := "/queue/item-0000000007",
                       fields := [("path_prefix", FieldVal.str "/queue/item-")],
                       isNewResource := false }]) :=
  ⟨rfl, import_idempotent allowAll
    { id := "/queue/item-0000000007", fields := [], isNewResource := false }
    { id := "/queue/item-0000000007",
      fields := [("path_prefix", FieldVal.str "/queue/item-")],
      isNewResource := false } rfl⟩

/-- C10: frame property of import: on success, `resourceSeqZNodeImport`
returns exactly one record; its id and new-resource mark are unchanged and
every state field other than `path_prefix` is unchanged. -/
theorem import_frame (sdk : String → FieldVal → Option String)
    (rd : ResourceData) (l : List ResourceData)
    (h : (resourceSeqZNodeImport sdk rd).1 = Except.ok l) :
    ∃ rd2, l = [rd2]
      ∧ rd2.id = rd.id
      ∧ rd2.isNewResource = rd.isNewResource
      ∧ ∀ k, k ≠ "path_prefix" → getF rd2.fields k = getF rd.fields k := by
  unfold resourceSeqZNodeImport ResourceData.set at h
  cases hs : sdk "path_prefix" (FieldVal.str (RemoveSequentialSuffix rd.id)) with
  | some e =>
    rw [hs] at h
    simp at h
  | none =>
    rw [hs] at h
    simp at h
    subst h
    exact ⟨_, rfl, rfl, rfl,
      fun k hk => getF_setF_ne rd.fields "path_prefix" k (FieldVal.str _) hk⟩

/-- C10 witness: the frame property at a concrete import. -/
theorem import_frame_witness :
    (resourceSeqZNodeImport allowAll
      { id := "/a/b0000000123", fields := [("data", FieldVal.bytes [1])],
        isNewResource := true }).1
      = Except.ok [{ id := "/a/b0000000123",
                     fields := [("data", FieldVal.bytes [1]),
                                ("path_prefix", FieldVal.str "/a/b")],
                     isNewResource := true }]
    ∧ (∃ rd2 : ResourceData,
        ([{ id := "/a/b0000000123",
            fields := [("data", FieldVal.bytes [1]),
                       ("path_prefix", FieldVal.str "/a/b")],
            isNewResource := true }] : List ResourceData) = [rd2]
        ∧ rd2.id = "/a/b0000000123"
        ∧ rd2.isNewResource = true
        ∧ ∀ k, k ≠ "path_prefix" →
            getF rd2.fields k = getF [("data", FieldVal.bytes [1])] k) :=
  ⟨rfl, import_frame allowAll
    { id := "/a/b0000000123", fields := [("data", FieldVal.bytes [1])],
      isNewResource := true }
    [{ id := "/a/b0000000123",
       fields := [("data", FieldVal.bytes [1]), ("path_prefix", FieldVal.str "/a/b")],
       isNewResource := true }] rfl⟩

/-- A resource-data record holding only the user-supplied path_prefix, as
Terraform hands it to the create operation. -/
def sampleSeqRd : ResourceData :=
  { id := "", fields := [("path_prefix", FieldVal.str "/queue/item-")],
    isNewResource := false }

/-- A client whose CreateSequential call fails. -/
def failingZk : String → List Nat → Except String ZNode :=
  fun _ _ => Except.error "connection lost"

/-- C2 counterexample: `resourceSeqZNodeCreate` performs no structural
verification of the returned path.  With path_prefix "/queue/item-" and a
client returning the path "/elsewhere" — which does not begin with the
prefix — the create succeeds with no diagnostic and records "/elsewhere" as
the resource identity. -/
theorem create_skips_prefix_check_cex :
    (resourceSeqZNodeCreate allowAll (Except.ok [])
        (fun _ _ => Except.ok { Path := "/elsewhere", Data := [], Stat := [] })
        sampleSeqRd).1.2 = []
    ∧ (resourceSeqZNodeCreate allowAll (Except.ok [])
        (fun _ _ => Except.ok { Path := "/elsewhere", Data := [], Stat := [] })
        sampleSeqRd).1.1.id = "/elsewhere"
    ∧ String.isPrefixOf "/queue/item-" "/elsewhere" = false :=
  ⟨rfl, rfl, by decide⟩

/-- C2 amended: `resourceSeqZNodeCreate` records the `Path` returned by the
external CreateSequential call verbatim as the resource identity (the value
passed to SetId), without verifying structurally that it begins with the
supplied path_prefix: whatever path the client returns becomes the id. -/
theorem create_records_returned_path (sdk : String → FieldVal → Option String)
    (bytes : List Nat) (z : ZNode) (rd : ResourceData) :
    ((resourceSeqZNodeCreate sdk (Except.ok bytes) (fun _ _ => Except.ok z) rd).1.1).id
      = z.Path := by
  show (setAttributesFromZNode sdk
    { rd with id := z.Path, isNewResource := true } z []).1.id = z.Path
  exact setAttributesFromZNode_id sdk _ z []

/-- C4: if the external CreateSequential call fails, `resourceSeqZNodeCreate`
(and the earlier package-zookeeper version) returns the resource-data record
unchanged — so no identity is assigned and no attribute is populated — along
with exactly one error diagnostic whose message carries the supplied path
prefix and the underlying error. -/
theorem create_failure_single_diagnostic (sdk : String → FieldVal → Option String)
    (bytes : List Nat) (zkCreateSeq : String → List Nat → Except String ZNode)
    (rd : ResourceData) (e : String)
    (hfail : zkCreateSeq (rd.getStr "path_prefix") bytes = Except.error e) :
    (resourceSeqZNodeCreate sdk (Except.ok bytes) zkCreateSeq rd).1
      = (rd, [⟨Severity.error,
          "Failed to create Sequential ZNode '" ++ rd.getStr "path_prefix" ++ "': " ++ e⟩])
    ∧ (resourceSeqZNodeCreateV0 sdk bytes zkCreateSeq rd).1
      = (rd, [⟨Severity.error,
          "Failed to create Sequential ZNode '" ++ rd.getStr "path_prefix" ++ "': " ++ e⟩]) := by
  constructor
  · simp [resourceSeqZNodeCreate, diagErrorf, hfail]
  · simp [resourceSeqZNodeCreateV0, hfail]

/-- C4 witness: the failing create at a concrete record and error. -/
theorem create_failure_single_diagnostic_witness :
    failingZk (sampleSeqRd.getStr "path_prefix") [] = Except.error "connection lost"
    ∧ ((resourceSeqZNodeCreate allowAll (Except.ok []) failingZk sampleSeqRd).1
        = (sampleSeqRd, [⟨Severity.error,
            "Failed to create Sequential ZNode '" ++ sampleSeqRd.getStr "path_prefix"
              ++ "': " ++ "connection lost"⟩])
      ∧ (resourceSeqZNodeCreateV0 allowAll [] failingZk sampleSeqRd).1
        = (sampleSeqRd, [⟨Severity.error,
            "Failed to create Sequential ZNode '" ++ sampleSeqRd.getStr "path_prefix"
              ++ "': " ++ "connection lost"⟩])) :=
  ⟨rfl, create_failure_single_diagnostic allowAll [] failingZk sampleSeqRd
    "connection lost" rfl⟩

/-- C7: for every data-source read, a failure of the external Read call is
surfaced as exactly one error diagnostic naming the target path, with exactly
one client call (no retry); on success the data source's identity is set to
the `Path` field of the znode the client returned, not to the requested input
path. -/
theorem datasource_read_diag_and_id (sdk : String → FieldVal → Option String)
    (zkRead : String → Except String ZNode) (rd : ResourceData) :
    (∀ e, zkRead (rd.getStr "path") = Except.error e →
        (dataSourceZNodeRead sdk zkRead rd).1.2 =
          [⟨Severity.error, "Unable read ZNode from '" ++ rd.getStr "path" ++ "': " ++ e⟩]
        ∧ (dataSourceZNodeRead sdk zkRead rd).2 = [ZkCall.readPath (rd.getStr "path")])
    ∧ (∀ z, zkRead (rd.getStr "path") = Except.ok z →
        (dataSourceZNodeRead sdk zkRead rd).1.1.id = z.Path
        ∧ (dataSourceZNodeRead sdk zkRead rd).2 = [ZkCall.readPath (rd.getStr "path")]) := by
  constructor
  · intro e he
    constructor <;> simp [dataSourceZNodeRead, diagErrorf, he]
  · intro z hz
    constructor
    · simp [dataSourceZNodeRead, hz, setAttributesFromZNode_id]
    · simp [dataSourceZNodeRead, hz]

/-- C8: the sequential-znode schema declares `path_prefix` as Required and
ForceNew, so a change to it forces replacement of the resource rather than an
in-place update. -/
theorem path_prefix_required_forcenew :
    (resourceSeqZNodeSchema.lookup "path_prefix").map SchemaAttr.required = some true
    ∧ (resourceSeqZNodeSchema.lookup "path_prefix").map SchemaAttr.forceNew = some true
    ∧ changeForcesReplacement resourceSeqZNodeSchema "path_prefix" = true :=
  ⟨rfl, rfl, rfl⟩

/-- C9: the schema declares `data` and `data_base64` as conflicting with each
other, so the validation run before any CRUD operation rejects every
configuration that supplies both. -/
theorem data_fields_mutually_exclusive (present : List String)
    (h1 : "data" ∈ present) (h2 : "data_base64" ∈ present) :
    (resourceSeqZNodeSchema.lookup "data").map SchemaAttr.conflictsWith = some ["data_base64"]
    ∧ (resourceSeqZNodeSchema.lookup "data_base64").map SchemaAttr.conflictsWith = some ["data"]
    ∧ conflictsAccepted resourceSeqZNodeSchema present = false := by
  refine ⟨rfl, rfl, ?_⟩
  by_contra hacc
  rw [Bool.not_eq_false] at hacc
  unfold conflictsAccepted at hacc
  rw [List.all_eq_true] at hacc
  have hd := hacc "data" h1
  have hlook : resourceSeqZNodeSchema.lookup "data"
      = some { typ := SchemaType.string, optional := true, computed := true,
               conflictsWith := ["data_base64"] } := rfl
  rw [hlook] at hd
  simp only [List.all_cons, List.all_nil, Bool.and_true] at hd
  rw [Bool.not_eq_true'] at hd
  rw [List.contains, List.elem_eq_true_of_mem h2] at hd
  exact absurd hd (by simp)

/-- C9 witness: the concrete configuration supplying both fields. -/
theorem data_fields_mutually_exclusive_witness :
    "data" ∈ ["data", "data_base64"]
    ∧ "data_base64" ∈ ["data", "data_base64"]
    ∧ ((resourceSeqZNodeSchema.lookup "data").map SchemaAttr.conflictsWith
        = some ["data_base64"]
      ∧ (resourceSeqZNodeSchema.lookup "data_base64").map SchemaAttr.conflictsWith
        = some ["data"]
      ∧ conflictsAccepted resourceSeqZNodeSchema ["data", "data_base64"] = false) :=
  ⟨by decide, by decide,
    data_fields_mutually_exclusive ["data", "data_base64"] (by decide) (by decide)⟩

end Provider
